import Mathlib

/-!
Verification of the warehouse temperature monitoring system
(`warehouse_monitor.py` and the read API `app.py`).

Shallow embedding conventions:
- Python floats are idealized as rationals (ℚ).
- `random.random()` is modelled as an explicit parameter `r` with `0 ≤ r < 1`;
  `random.uniform(a, b)` is `a + (b - a) * r` (the CPython implementation).
- Python's `round(x, 1)` (round-half-to-even on the scaled value) is
  `round1`, built from `roundHalfEvenInt`.
- The sqlite tables are lists of rows; `INSERT` is list append; the
  `DEFAULT FALSE` of the `resolved` column becomes the literal `false`
  in the appended row, and `DEFAULT CURRENT_TIMESTAMP` becomes an explicit
  `now` parameter.
- Python exception propagation in the monitoring loop is modelled by an
  explicit error component: the loop body stops at the first failing
  storage append, since the source has no try/except around it.
-/

namespace WarehouseMonitor

/-- Threshold from `WarehouseTemperatureMonitor.__init__` (line 13):
`self.alert_threshold_high = 25.0`. -/
def alert_threshold_high : ℚ := 25

/-- Threshold from `WarehouseTemperatureMonitor.__init__` (line 14):
`self.alert_threshold_low = 2.0`. -/
def alert_threshold_low : ℚ := 2

/-- Round-half-to-even to the nearest integer, the rounding mode of
Python's builtin `round`. -/
def roundHalfEvenInt (q : ℚ) : ℤ :=
  if q - ⌊q⌋ < 1/2 then ⌊q⌋
  else if 1/2 < q - ⌊q⌋ then ⌊q⌋ + 1
  else if ⌊q⌋ % 2 = 0 then ⌊q⌋ else ⌊q⌋ + 1

/-- Python's `round(x, 1)`: round to one decimal place. -/
def round1 (q : ℚ) : ℚ := (roundHalfEvenInt (10 * q) : ℚ) / 10

/-- CPython's `random.uniform(a, b)`: `a + (b - a) * random.random()`,
with the unit draw `u` made explicit. -/
def uniform (a b u : ℚ) : ℚ := a + (b - a) * u

/-- The `base_temps` dictionary of `generate_random_temperature`
(lines 87-95), together with its `.get(sensor_id, (15.0, 25.0))`
default for unknown ids. -/
def base_temps (sensor_id : String) : ℚ × ℚ :=
  if sensor_id = "sensor_001" then (1, 10)
  else if sensor_id = "sensor_002" then (15, 30)
  else if sensor_id = "sensor_003" then (18, 28)
  else if sensor_id = "sensor_004" then (20, 24)
  else if sensor_id = "sensor_005" then (16, 26)
  else (15, 25)

/-- `generate_random_temperature` (lines 85-105).  The three potential
uniform draws and the two `random.random()` probability draws are
explicit parameters: `uNormal` is the unit draw for the normal-range
uniform, `rExtreme` the draw compared with `0.3`, `rBranch` the draw
compared with `0.5`, and `uHigh`/`uLow` the unit draws for the two
extreme uniforms. -/
def generate_random_temperature (sensor_id : String)
    (uNormal rExtreme rBranch uHigh uLow : ℚ) : ℚ :=
  let b := base_temps sensor_id
  let temperature := uniform b.1 b.2 uNormal
  let temperature :=
    if rExtreme < 3/10 then
      if rBranch < 1/2 then uniform 26 35 uHigh
      else uniform (-5) 1 uLow
    else temperature
  round1 temperature

/-- A row of the sqlite `alerts` table (schema lines 50-57). -/
structure AlertRow where
  sensor_id : String
  alert_type : String
  temperature : ℚ
  timestamp : ℕ
  resolved : Bool
deriving DecidableEq, Repr

/-- `store_alert` (lines 134-145): `INSERT INTO alerts (sensor_id,
alert_type, temperature) VALUES (?, ?, ?)`.  The omitted columns take
their schema defaults: `timestamp` is the insertion time `now` and
`resolved` is `false`. -/
def store_alert (db : List AlertRow) (sensor_id : String)
    (alert_type : String) (temperature : ℚ) (now : ℕ) : List AlertRow :=
  db ++ [AlertRow.mk sensor_id alert_type temperature now false]

/-- `check_alerts` (lines 120-132): `if temperature >
self.alert_threshold_high` store a `HIGH_TEMPERATURE` alert, `elif
temperature < self.alert_threshold_low` store a `LOW_TEMPERATURE`
alert, else store nothing.  The logging and printing are observability
side effects with no data-flow and are not modelled. -/
def check_alerts (db : List AlertRow) (sensor_id : String)
    (temperature : ℚ) (now : ℕ) : List AlertRow :=
  if temperature > alert_threshold_high then
    store_alert db sensor_id "HIGH_TEMPERATURE" temperature now
  else if temperature < alert_threshold_low then
    store_alert db sensor_id "LOW_TEMPERATURE" temperature now
  else db

/-- `get_active_alerts` in `app.py` (lines 68-90): `SELECT ... FROM
alerts WHERE resolved = FALSE ORDER BY timestamp DESC`.  The WHERE
clause is a filter and the ORDER BY a sort by descending timestamp. -/
def get_active_alerts (db : List AlertRow) : List AlertRow :=
  (db.filter fun r => r.resolved = false).mergeSort
    (fun a b => decide (b.timestamp ≤ a.timestamp))

/-- A registry entry, the dictionary built in `setup_default_sensors`
(lines 77-82).  `current_temp` comes from `random.uniform(15.0, 25.0)`
at initialization; the draw is passed in by the caller of
`setup_default_sensors` below. -/
structure Sensor where
  location : String
  current_temp : ℚ
  last_reading : Option (ℚ × ℕ)
  is_active : Bool
deriving DecidableEq, Repr

/-- The `default_sensors` list of `setup_default_sensors` (lines 68-74). -/
def default_sensors : List (String × String) :=
  [("sensor_001", "Cold Storage Area"),
   ("sensor_002", "Loading Dock"),
   ("sensor_003", "Main Storage Area"),
   ("sensor_004", "Office Area"),
   ("sensor_005", "Shipping Department")]

/-- `setup_default_sensors` (lines 67-83): registers the five default
sensors with `last_reading = None` and `is_active = True`.
`init_temp` supplies each sensor's cosmetic `random.uniform(15.0, 25.0)`
initial current temperature. -/
def setup_default_sensors (init_temp : String → ℚ) : List (String × Sensor) :=
  default_sensors.map fun p =>
    (p.1, Sensor.mk p.2 (init_temp p.1) none true)

/-- The sensor-id iteration order of the monitoring loop:
`self.sensors.keys()` in registration order (Python dicts preserve
insertion order). -/
def default_sensor_ids : List String := default_sensors.map Prod.fst

/-- The error raised by a failing sqlite append in `store_reading`
(lines 107-118): an I/O failure such as disk full or corruption. -/
inductive StorageError where
  | ioFailure
deriving DecidableEq, Repr

/-- The per-tick `for sensor_id in self.sensors.keys()` body of
`monitoring_loop` (lines 151-166), with the fallible storage append of
`store_reading` abstracted as `store`.  The source wraps the body in no
try/except, so a raised `StorageError` propagates and aborts the whole
loop: the model returns the list of sensors fully processed before the
failure together with `some e` when a failure occurred. -/
def monitoring_tick (store : String → Except StorageError Unit)
    (sensors : List String) : List String × Option StorageError :=
  match sensors with
  | [] => ([], none)
  | s :: rest =>
    match store s with
    | Except.error e => ([], some e)
    | Except.ok _ =>
      let r := monitoring_tick store rest
      (s :: r.1, r.2)

/-- A storage stub whose append raises on `sensor_001` and succeeds on
every other sensor: a concrete single-sensor I/O failure. -/
def fail_store_001 : String → Except StorageError Unit :=
  fun s => if s = "sensor_001" then Except.error StorageError.ioFailure
           else Except.ok ()

/-- The lifecycle-relevant state of `WarehouseTemperatureMonitor`: the
`is_running` flag (line 12) plus a count of the monitoring worker
threads spawned by `threading.Thread(...).start()` and still active. -/
structure MonitorState where
  is_running : Bool
  monitor_threads : ℕ
deriving DecidableEq, Repr

/-- The state after `__init__` (lines 9-19): not running, no worker. -/
def initial_state : MonitorState := MonitorState.mk false 0

/-- `start_monitoring` (lines 170-175): unconditionally sets
`is_running = True` and unconditionally creates and starts a new
monitoring thread, with no guard against already being started. -/
def start_monitoring (st : MonitorState) : MonitorState :=
  MonitorState.mk true (st.monitor_threads + 1)

/-- `stop_monitoring` (lines 177-179): sets `is_running = False` and
returns; no exception is raised and no thread is spawned. -/
def stop_monitoring (st : MonitorState) : MonitorState :=
  MonitorState.mk false st.monitor_threads

/-- The number of ticks fired by `monitoring_loop`'s
`while self.is_running` header (line 151) within `fuel` loop checks:
nothing inside the loop changes the flag, so a stopped monitor fires
zero ticks. -/
def monitoring_loop_ticks (is_running : Bool) (fuel : ℕ) : ℕ :=
  match fuel with
  | 0 => 0
  | Nat.succ n => if is_running then monitoring_loop_ticks is_running n + 1 else 0

end WarehouseMonitor

namespace WarehouseMonitor

theorem roundHalfEvenInt_bounds (q : ℚ) :
    ⌊q⌋ ≤ roundHalfEvenInt q ∧
      (roundHalfEvenInt q = ⌊q⌋ ∨
        (roundHalfEvenInt q = ⌊q⌋ + 1 ∧ 1/2 ≤ q - ⌊q⌋)) := by
  unfold roundHalfEvenInt
  split_ifs with h1 h2 h3
  · exact ⟨le_refl _, Or.inl rfl⟩
  · exact ⟨by omega, Or.inr ⟨rfl, by linarith⟩⟩
  · exact ⟨le_refl _, Or.inl rfl⟩
  · exact ⟨by omega, Or.inr ⟨rfl, by linarith⟩⟩

/-- Rounding to one decimal keeps a value inside a closed interval with
integer endpoints. -/
theorem round1_mem_Icc (n m : ℤ) (q : ℚ) (hn : (n : ℚ) ≤ q) (hm : q ≤ (m : ℚ)) :
    (n : ℚ) ≤ round1 q ∧ round1 q ≤ (m : ℚ) := by
  have hfl : (10 * n : ℤ) ≤ ⌊10 * q⌋ := by
    apply Int.le_floor.mpr
    push_cast
    linarith
  obtain ⟨hlow, hcases⟩ := roundHalfEvenInt_bounds (10 * q)
  have hup : roundHalfEvenInt (10 * q) ≤ 10 * m := by
    rcases hcases with heq | ⟨heq, hfrac⟩
    · rw [heq]
      calc ⌊10 * q⌋ ≤ ⌊(10 * m : ℤ) * (1 : ℚ)⌋ := by
            apply Int.floor_le_floor
            push_cast
            linarith
        _ = 10 * m := by rw [mul_one, Int.floor_intCast]
    · rw [heq]
      have hfloor_lt : (⌊10 * q⌋ : ℚ) < (10 * m : ℤ) := by
        have h1 : (⌊10 * q⌋ : ℚ) + 1/2 ≤ 10 * q := by linarith
        push_cast
        push_cast at h1
        linarith
      have : ⌊10 * q⌋ < 10 * m := by exact_mod_cast hfloor_lt
      omega
  have hlow' : (10 * n : ℤ) ≤ roundHalfEvenInt (10 * q) := le_trans hfl hlow
  unfold round1
  constructor
  · rw [le_div_iff₀ (by norm_num : (0:ℚ) < 10)]
    have h : ((10 * n : ℤ) : ℚ) ≤ (roundHalfEvenInt (10 * q) : ℚ) := by
      exact_mod_cast hlow'
    push_cast at h ⊢
    linarith
  · rw [div_le_iff₀ (by norm_num : (0:ℚ) < 10)]
    have h : ((roundHalfEvenInt (10 * q) : ℤ) : ℚ) ≤ ((10 * m : ℤ) : ℚ) := by
      exact_mod_cast hup
    push_cast at h ⊢
    linarith

theorem uniform_mem (a b u : ℚ) (hab : a ≤ b) (h0 : 0 ≤ u) (h1 : u < 1) :
    a ≤ uniform a b u ∧ uniform a b u ≤ b := by
  unfold uniform
  constructor
  · nlinarith
  · nlinarith

theorem base_temps_le (sensor_id : String) :
    (base_temps sensor_id).1 ≤ (base_temps sensor_id).2 := by
  unfold base_temps
  split_ifs <;> norm_num

theorem base_temps_int (sensor_id : String) :
    ∃ a b : ℤ, base_temps sensor_id = ((a : ℚ), (b : ℚ)) := by
  unfold base_temps
  split_ifs
  · exact ⟨1, 10, by norm_num⟩
  · exact ⟨15, 30, by norm_num⟩
  · exact ⟨18, 28, by norm_num⟩
  · exact ⟨20, 24, by norm_num⟩
  · exact ⟨16, 26, by norm_num⟩
  · exact ⟨15, 25, by norm_num⟩

theorem roundHalfEvenInt_intCast (n : ℤ) : roundHalfEvenInt (n : ℚ) = n := by
  unfold roundHalfEvenInt
  rw [Int.floor_intCast]
  rw [if_pos]
  rw [sub_self]
  norm_num

/-- When the 30% extreme branch is not taken, the generated temperature
stays in the sensor's configured normal range. -/
theorem generate_nonextreme_mem (sid : String) (uN rE rB uH uL : ℚ)
    (h0 : 0 ≤ uN) (h1 : uN < 1) (hrE : ¬ rE < 3/10) :
    (base_temps sid).1 ≤ generate_random_temperature sid uN rE rB uH uL ∧
      generate_random_temperature sid uN rE rB uH uL ≤ (base_temps sid).2 := by
  simp only [generate_random_temperature]
  rw [if_neg hrE]
  obtain ⟨a, b, hab⟩ := base_temps_int sid
  have hle := base_temps_le sid
  rw [hab] at hle ⊢
  simp only [] at hle ⊢
  obtain ⟨hl, hr⟩ := uniform_mem (a : ℚ) (b : ℚ) uN hle h0 h1
  exact round1_mem_Icc a b _ hl hr

/-- When the extreme branch and its high sub-branch are taken, the
generated temperature lies in the high-extreme range. -/
theorem generate_extreme_high_mem (sid : String) (uN rE rB uH uL : ℚ)
    (h0 : 0 ≤ uH) (h1 : uH < 1) (hrE : rE < 3/10) (hrB : rB < 1/2) :
    26 ≤ generate_random_temperature sid uN rE rB uH uL ∧
      generate_random_temperature sid uN rE rB uH uL ≤ 35 := by
  simp only [generate_random_temperature]
  rw [if_pos hrE, if_pos hrB]
  obtain ⟨hl, hr⟩ := uniform_mem 26 35 uH (by norm_num) h0 h1
  have := round1_mem_Icc 26 35 _ (by exact_mod_cast hl) (by exact_mod_cast hr)
  constructor
  · exact_mod_cast this.1
  · exact_mod_cast this.2

/-- When the extreme branch and its low sub-branch are taken, the
generated temperature lies in the low-extreme range. -/
theorem generate_extreme_low_mem (sid : String) (uN rE rB uH uL : ℚ)
    (h0 : 0 ≤ uL) (h1 : uL < 1) (hrE : rE < 3/10) (hrB : ¬ rB < 1/2) :
    -5 ≤ generate_random_temperature sid uN rE rB uH uL ∧
      generate_random_temperature sid uN rE rB uH uL ≤ 1 := by
  simp only [generate_random_temperature]
  rw [if_pos hrE, if_neg hrB]
  obtain ⟨hl, hr⟩ := uniform_mem (-5) 1 uL (by norm_num) h0 h1
  have := round1_mem_Icc (-5) 1 _ (by exact_mod_cast hl) (by exact_mod_cast hr)
  constructor
  · exact_mod_cast this.1
  · exact_mod_cast this.2

theorem round1_eq_int_div_ten (q : ℚ) : ∃ k : ℤ, round1 q = (k : ℚ) / 10 :=
  ⟨roundHalfEvenInt (10 * q), rfl⟩

theorem generate_one_decimal (sid : String) (uN rE rB uH uL : ℚ) :
    ∃ k : ℤ, generate_random_temperature sid uN rE rB uH uL = (k : ℚ) / 10 := by
  simp only [generate_random_temperature]
  exact round1_eq_int_div_ten _

theorem append_singleton_ne_self (db : List AlertRow) (x : AlertRow) :
    db ++ [x] ≠ db := by
  intro h
  simpa using congrArg List.length h

/-- C1: alert evaluation produces a HIGH_TEMPERATURE alert iff the
temperature is above 25.0, a LOW_TEMPERATURE alert iff it is below 2.0,
and no alert otherwise; for every temperature exactly one of the three
outcomes holds. -/
theorem check_alerts_classification (db : List AlertRow) (sid : String)
    (t : ℚ) (now : ℕ) :
    ((check_alerts db sid t now
        = db ++ [AlertRow.mk sid "HIGH_TEMPERATURE" t now false]) ↔
      alert_threshold_high < t) ∧
    ((check_alerts db sid t now
        = db ++ [AlertRow.mk sid "LOW_TEMPERATURE" t now false]) ↔
      t < alert_threshold_low) ∧
    ((check_alerts db sid t now = db) ↔
      (¬ alert_threshold_high < t ∧ ¬ t < alert_threshold_low)) ∧
    (((check_alerts db sid t now
          = db ++ [AlertRow.mk sid "HIGH_TEMPERATURE" t now false]) ∧
        ¬ (check_alerts db sid t now
          = db ++ [AlertRow.mk sid "LOW_TEMPERATURE" t now false]) ∧
        ¬ (check_alerts db sid t now = db)) ∨
      ((check_alerts db sid t now
          = db ++ [AlertRow.mk sid "LOW_TEMPERATURE" t now false]) ∧
        ¬ (check_alerts db sid t now
          = db ++ [AlertRow.mk sid "HIGH_TEMPERATURE" t now false]) ∧
        ¬ (check_alerts db sid t now = db)) ∨
      ((check_alerts db sid t now = db) ∧
        ¬ (check_alerts db sid t now
          = db ++ [AlertRow.mk sid "HIGH_TEMPERATURE" t now false]) ∧
        ¬ (check_alerts db sid t now
          = db ++ [AlertRow.mk sid "LOW_TEMPERATURE" t now false]))) := by
  have hrows : AlertRow.mk sid "HIGH_TEMPERATURE" t now false
      ≠ AlertRow.mk sid "LOW_TEMPERATURE" t now false := by
    intro h
    have := congrArg AlertRow.alert_type h
    simp at this
  by_cases h1 : alert_threshold_high < t
  · have h2 : ¬ t < alert_threshold_low := by
      unfold alert_threshold_high at h1
      unfold alert_threshold_low
      linarith
    have hc : check_alerts db sid t now
        = db ++ [AlertRow.mk sid "HIGH_TEMPERATURE" t now false] := by
      unfold check_alerts store_alert
      rw [if_pos h1]
    have hnl : ¬ check_alerts db sid t now
        = db ++ [AlertRow.mk sid "LOW_TEMPERATURE" t now false] := by
      rw [hc]
      intro h
      simp at h
    have hnn : ¬ check_alerts db sid t now = db := by
      rw [hc]
      exact append_singleton_ne_self db _
    exact ⟨⟨fun _ => h1, fun _ => hc⟩,
      ⟨fun h => absurd h hnl, fun h => absurd h h2⟩,
      ⟨fun h => absurd h hnn, fun h => absurd h1 h.1⟩,
      Or.inl ⟨hc, hnl, hnn⟩⟩
  · by_cases h2 : t < alert_threshold_low
    · have hc : check_alerts db sid t now
          = db ++ [AlertRow.mk sid "LOW_TEMPERATURE" t now false] := by
        unfold check_alerts store_alert
        rw [if_neg h1, if_pos h2]
      have hnh : ¬ check_alerts db sid t now
          = db ++ [AlertRow.mk sid "HIGH_TEMPERATURE" t now false] := by
        rw [hc]
        intro h
        exact hrows (by simpa using h.symm)
      have hnn : ¬ check_alerts db sid t now = db := by
        rw [hc]
        exact append_singleton_ne_self db _
      exact ⟨⟨fun h => absurd h hnh, fun h => absurd h1 (by
          unfold alert_threshold_high at *
          unfold alert_threshold_low at h2
          linarith)⟩,
        ⟨fun _ => h2, fun _ => hc⟩,
        ⟨fun h => absurd h hnn, fun h => absurd h2 h.2⟩,
        Or.inr (Or.inl ⟨hc, hnh, hnn⟩)⟩
    · have hc : check_alerts db sid t now = db := by
        unfold check_alerts store_alert
        rw [if_neg h1, if_neg h2]
      have hnh : ¬ check_alerts db sid t now
          = db ++ [AlertRow.mk sid "HIGH_TEMPERATURE" t now false] := by
        rw [hc]
        intro h
        exact append_singleton_ne_self db _ h.symm
      have hnl : ¬ check_alerts db sid t now
          = db ++ [AlertRow.mk sid "LOW_TEMPERATURE" t now false] := by
        rw [hc]
        intro h
        exact append_singleton_ne_self db _ h.symm
      exact ⟨⟨fun h => absurd h hnh, fun h => absurd h h1⟩,
        ⟨fun h => absurd h hnl, fun h => absurd h h2⟩,
        ⟨fun _ => ⟨h1, h2⟩, fun _ => hc⟩,
        Or.inr (Or.inr ⟨hc, hnh, hnl⟩)⟩

/-- C2: each call to the generator, modelled on its explicit random
draws, yields a value in the high-extreme range when the 30% branch and
the 50% high sub-branch are taken, in the low-extreme range when the
30% branch and the low sub-branch are taken, in the sensor's configured
normal range otherwise, and in every case a value that is an integer
number of tenths (rounded to one decimal place). -/
theorem generate_distribution (sid : String) (uN rE rB uH uL : ℚ)
    (huN : 0 ≤ uN ∧ uN < 1) (huH : 0 ≤ uH ∧ uH < 1) (huL : 0 ≤ uL ∧ uL < 1) :
    (rE < 3/10 → rB < 1/2 →
      26 ≤ generate_random_temperature sid uN rE rB uH uL ∧
        generate_random_temperature sid uN rE rB uH uL ≤ 35) ∧
    (rE < 3/10 → ¬ rB < 1/2 →
      -5 ≤ generate_random_temperature sid uN rE rB uH uL ∧
        generate_random_temperature sid uN rE rB uH uL ≤ 1) ∧
    (¬ rE < 3/10 →
      (base_temps sid).1 ≤ generate_random_temperature sid uN rE rB uH uL ∧
        generate_random_temperature sid uN rE rB uH uL ≤ (base_temps sid).2) ∧
    (∃ k : ℤ, generate_random_temperature sid uN rE rB uH uL = (k : ℚ) / 10) :=
  ⟨fun hrE hrB => generate_extreme_high_mem sid uN rE rB uH uL huH.1 huH.2 hrE hrB,
   fun hrE hrB => generate_extreme_low_mem sid uN rE rB uH uL huL.1 huL.2 hrE hrB,
   fun hrE => generate_nonextreme_mem sid uN rE rB uH uL huN.1 huN.2 hrE,
   generate_one_decimal sid uN rE rB uH uL⟩

/-- Witness for C2 at concrete draws: sensor_003 with a non-extreme
draw stays in its normal range 18-28. -/
theorem generate_distribution_witness :
    (base_temps "sensor_003").1
        ≤ generate_random_temperature "sensor_003" 0 (1/2) 0 0 0 ∧
      generate_random_temperature "sensor_003" 0 (1/2) 0 0 0
        ≤ (base_temps "sensor_003").2 :=
  (generate_distribution "sensor_003" 0 (1/2) 0 0 0
    ⟨by norm_num, by norm_num⟩ ⟨by norm_num, by norm_num⟩
    ⟨by norm_num, by norm_num⟩).2.2.1 (by norm_num)

/-- Counterexample to C3: with a store that fails on sensor_001 (the
first sensor of the registration order), the tick aborts with the
error, no sensor is fully processed, and in particular sensor_002 is
not processed, contradicting the claim that the loop continues with
the remaining sensors. -/
theorem monitoring_tick_abort_counterexample :
    monitoring_tick fail_store_001 default_sensor_ids
        = ([], some StorageError.ioFailure) ∧
      "sensor_002" ∉ (monitoring_tick fail_store_001 default_sensor_ids).1 := by
  constructor
  · rfl
  · intro h
    simp [monitoring_tick, fail_store_001, default_sensor_ids,
      default_sensors] at h

/-- C3 amended: `store_reading` and `monitoring_loop` contain no
try/except, so a StorageError raised by a sensor's storage append
propagates: the tick stops at the first failing sensor, exactly the
sensors before it are processed, and the sensors after it are not. -/
theorem monitoring_tick_stops_at_first_failure
    (store : String → Except StorageError Unit)
    (pre post : List String) (s : String) (e : StorageError)
    (hpre : ∀ x ∈ pre, store x = Except.ok ())
    (hfail : store s = Except.error e) :
    monitoring_tick store (pre ++ s :: post) = (pre, some e) := by
  induction pre with
  | nil =>
    simp only [List.nil_append, monitoring_tick, hfail]
  | cons a as ih =>
    have ha : store a = Except.ok () := hpre a (by simp)
    have ih' := ih (fun x hx => hpre x (by simp [hx]))
    simp only [List.cons_append, monitoring_tick, ha, List.append_eq, ih']

/-- Witness for the amended C3 at a concrete store and sensor list. -/
theorem monitoring_tick_stops_witness :
    monitoring_tick fail_store_001
        (["sensor_000"] ++ "sensor_001" :: ["sensor_002"])
      = (["sensor_000"], some StorageError.ioFailure) :=
  monitoring_tick_stops_at_first_failure fail_store_001
    ["sensor_000"] ["sensor_002"] "sensor_001" StorageError.ioFailure
    (by
      intro x hx
      simp only [List.mem_singleton] at hx
      subst hx
      rfl)
    rfl

/-- Counterexample to C4: starting from the freshly initialized
monitor, the first `start_monitoring` leaves the monitor Running, and a
second `start_monitoring` unconditionally spawns another worker thread,
so two monitoring workers are active — not at most one. -/
theorem start_twice_counterexample :
    (start_monitoring initial_state).is_running = true ∧
      (start_monitoring (start_monitoring initial_state)).monitor_threads = 2 ∧
      ¬ (start_monitoring (start_monitoring initial_state)).monitor_threads ≤ 1 := by
  refine ⟨rfl, rfl, ?_⟩
  decide

/-- C4 amended: `start_monitoring` has no running-guard; every call
sets the running flag and unconditionally creates and starts one more
monitoring worker thread, so calling it while already Running spawns a
second concurrent tick stream. -/
theorem start_monitoring_always_spawns (st : MonitorState) :
    (start_monitoring st).is_running = true ∧
      (start_monitoring st).monitor_threads = st.monitor_threads + 1 :=
  ⟨rfl, rfl⟩

/-- C5: any alert row appended by `check_alerts` (the only caller of
`store_alert`) has temperature strictly above the high threshold or
strictly below the low threshold, and its resolved flag is false (the
schema default, since the INSERT omits the column). -/
theorem alert_created_crosses_threshold (db : List AlertRow) (sid : String)
    (t : ℚ) (now : ℕ) (r : AlertRow)
    (hmem : r ∈ check_alerts db sid t now) (hnew : r ∉ db) :
    (r.temperature > alert_threshold_high ∨
        r.temperature < alert_threshold_low) ∧
      r.resolved = false := by
  unfold check_alerts store_alert at hmem
  split_ifs at hmem with h1 h2
  · rw [List.mem_append] at hmem
    rcases hmem with h | h
    · exact absurd h hnew
    · rw [List.mem_singleton] at h
      subst h
      exact ⟨Or.inl h1, rfl⟩
  · rw [List.mem_append] at hmem
    rcases hmem with h | h
    · exact absurd h hnew
    · rw [List.mem_singleton] at h
      subst h
      exact ⟨Or.inr h2, rfl⟩
  · exact absurd hmem hnew

/-- Witness for C5: the row stored for a reading of 30.0 on an empty
alerts table. -/
theorem alert_created_crosses_threshold_witness :
    ((AlertRow.mk "sensor_002" "HIGH_TEMPERATURE" 30 7 false).temperature
          > alert_threshold_high ∨
        (AlertRow.mk "sensor_002" "HIGH_TEMPERATURE" 30 7 false).temperature
          < alert_threshold_low) ∧
      (AlertRow.mk "sensor_002" "HIGH_TEMPERATURE" 30 7 false).resolved = false :=
  alert_created_crosses_threshold [] "sensor_002" 30 7
    (AlertRow.mk "sensor_002" "HIGH_TEMPERATURE" 30 7 false)
    (by
      unfold check_alerts store_alert
      rw [if_pos (by norm_num [alert_threshold_high])]
      simp)
    (by simp)

/-- C6: the active-alerts query returns exactly the alert rows whose
resolved flag is false (same members, with multiplicity: it is a
permutation of the filter), ordered descending by timestamp, and never
returns a row with resolved = true. -/
theorem get_active_alerts_spec (db : List AlertRow) :
    (∀ r ∈ get_active_alerts db, r.resolved = false) ∧
    (∀ r, r ∈ get_active_alerts db ↔ (r ∈ db ∧ r.resolved = false)) ∧
    (get_active_alerts db).Perm (db.filter fun r => r.resolved = false) ∧
    List.Sorted (fun a b : AlertRow => b.timestamp ≤ a.timestamp)
      (get_active_alerts db) := by
  have hmem : ∀ r : AlertRow,
      r ∈ get_active_alerts db ↔ (r ∈ db ∧ r.resolved = false) := by
    intro r
    unfold get_active_alerts
    rw [List.mem_mergeSort, List.mem_filter]
    simp
  refine ⟨fun r hr => ((hmem r).mp hr).2, hmem, ?_, ?_⟩
  · unfold get_active_alerts
    exact List.mergeSort_perm _ _
  · unfold get_active_alerts
    have hp := @List.sorted_mergeSort _
      (fun a b : AlertRow => decide (b.timestamp ≤ a.timestamp))
      (fun a b c hab hbc => by
        simp only [decide_eq_true_eq] at *
        omega)
      (fun a b => by
        simp only [Bool.or_eq_true, decide_eq_true_eq]
        omega)
      (db.filter fun r => r.resolved = false)
    exact hp.imp (by
      intro a b h
      simpa using h)

/-- C7: the registry is initialized with exactly the five default
sensors with their specified ids and location labels, the generator's
per-sensor normal ranges are exactly the specified ones, and the
non-extreme draw of every sensor lies in that sensor's range. -/
theorem default_sensors_and_ranges (init_temp : String → ℚ)
    (uN rE rB uH uL : ℚ)
    (huN : 0 ≤ uN ∧ uN < 1) (hrE : ¬ rE < 3/10) :
    ((setup_default_sensors init_temp).map (fun p => (p.1, p.2.location)) =
      [("sensor_001", "Cold Storage Area"),
       ("sensor_002", "Loading Dock"),
       ("sensor_003", "Main Storage Area"),
       ("sensor_004", "Office Area"),
       ("sensor_005", "Shipping Department")]) ∧
    base_temps "sensor_001" = (1, 10) ∧
    base_temps "sensor_002" = (15, 30) ∧
    base_temps "sensor_003" = (18, 28) ∧
    base_temps "sensor_004" = (20, 24) ∧
    base_temps "sensor_005" = (16, 26) ∧
    (∀ sid : String,
      (base_temps sid).1 ≤ generate_random_temperature sid uN rE rB uH uL ∧
        generate_random_temperature sid uN rE rB uH uL ≤ (base_temps sid).2) := by
  refine ⟨?_, ?_, ?_, ?_, ?_, ?_,
    fun sid => generate_nonextreme_mem sid uN rE rB uH uL huN.1 huN.2 hrE⟩
  · simp [setup_default_sensors, default_sensors]
  · simp [base_temps]
  · simp [base_temps]
  · simp [base_temps]
  · simp [base_temps]
  · simp [base_temps]

/-- Witness for C7: the registry shape at a concrete initial
temperature function, and sensor_002's non-extreme draw inside its
range 15-30. -/
theorem default_sensors_and_ranges_witness :
    base_temps "sensor_002" = (15, 30) ∧
      ((base_temps "sensor_002").1
          ≤ generate_random_temperature "sensor_002" 0 (1/2) 0 0 0 ∧
        generate_random_temperature "sensor_002" 0 (1/2) 0 0 0
          ≤ (base_temps "sensor_002").2) :=
  ⟨(default_sensors_and_ranges (fun _ => 20) 0 (1/2) 0 0 0
      ⟨le_refl 0, by norm_num⟩ (by norm_num)).2.2.1,
   (default_sensors_and_ranges (fun _ => 20) 0 (1/2) 0 0 0
      ⟨le_refl 0, by norm_num⟩ (by norm_num)).2.2.2.2.2.2 "sensor_002"⟩

/-- C8: `stop_monitoring` is idempotent: a second stop leaves the state
exactly as after the first (in particular Stopped), the model is a
total function so no error is raised, and a stopped monitoring loop
fires zero further ticks regardless of fuel. -/
theorem stop_monitoring_idempotent (st : MonitorState) :
    stop_monitoring (stop_monitoring st) = stop_monitoring st ∧
      (stop_monitoring (stop_monitoring st)).is_running = false ∧
      (∀ fuel : ℕ,
        monitoring_loop_ticks
          (stop_monitoring (stop_monitoring st)).is_running fuel = 0) := by
  refine ⟨rfl, rfl, fun fuel => ?_⟩
  cases fuel <;> rfl

/-- C9: `base_temps.get(sensor_id, (15.0, 25.0))` makes the generator
total: an id outside the default configuration falls back to the
default normal range 15.0-25.0, and a non-extreme draw for such an id
lies in that range. -/
theorem generate_total_unknown_sensor (sid : String)
    (hunknown : sid ∉ default_sensor_ids) (uN rE rB uH uL : ℚ)
    (huN : 0 ≤ uN ∧ uN < 1) (hrE : ¬ rE < 3/10) :
    base_temps sid = (15, 25) ∧
      (15 ≤ generate_random_temperature sid uN rE rB uH uL ∧
        generate_random_temperature sid uN rE rB uH uL ≤ 25) := by
  have hids : sid ≠ "sensor_001" ∧ sid ≠ "sensor_002" ∧ sid ≠ "sensor_003"
      ∧ sid ≠ "sensor_004" ∧ sid ≠ "sensor_005" := by
    simp only [default_sensor_ids, default_sensors, List.map_cons,
      List.map_nil, List.mem_cons, List.not_mem_nil, or_false] at hunknown
    push_neg at hunknown
    exact hunknown
  have hb : base_temps sid = (15, 25) := by
    unfold base_temps
    rw [if_neg hids.1, if_neg hids.2.1, if_neg hids.2.2.1,
      if_neg hids.2.2.2.1, if_neg hids.2.2.2.2]
  have hg := generate_nonextreme_mem sid uN rE rB uH uL huN.1 huN.2 hrE
  rw [hb] at hg
  exact ⟨hb, hg⟩

/-- Witness for C9 at the unknown id sensor_999. -/
theorem generate_total_unknown_sensor_witness :
    base_temps "sensor_999" = (15, 25) ∧
      (15 ≤ generate_random_temperature "sensor_999" 0 (1/2) 0 0 0 ∧
        generate_random_temperature "sensor_999" 0 (1/2) 0 0 0 ≤ 25) :=
  generate_total_unknown_sensor "sensor_999"
    (by
      simp [default_sensor_ids, default_sensors])
    0 (1/2) 0 0 0 ⟨le_refl 0, by norm_num⟩ (by norm_num)

/-- C10: alerts are not exclusively caused by extreme draws: there are
explicit random draws with the 30% extreme branch NOT taken for which
sensor_002's normal-range value 28.5 exceeds the high threshold, and
`check_alerts` on that value stores a HIGH_TEMPERATURE alert. -/
theorem normal_draw_triggers_high_alert :
    ∃ uN rE rB uH uL : ℚ,
      (0 ≤ uN ∧ uN < 1) ∧ ¬ rE < 3/10 ∧
      generate_random_temperature "sensor_002" uN rE rB uH uL = 57/2 ∧
      alert_threshold_high < 57/2 ∧
      check_alerts [] "sensor_002" (57/2) 0 =
        [AlertRow.mk "sensor_002" "HIGH_TEMPERATURE" (57/2) 0 false] := by
  refine ⟨9/10, 1/2, 0, 0, 0, ⟨by norm_num, by norm_num⟩, by norm_num,
    ?_, by norm_num [alert_threshold_high], ?_⟩
  · have hbase : base_temps "sensor_002" = (15, 30) := by
      simp [base_temps]
    simp only [generate_random_temperature, hbase]
    rw [if_neg (by norm_num)]
    have hu : uniform 15 30 (9/10) = 57/2 := by
      unfold uniform
      norm_num
    rw [hu]
    unfold round1
    have h285 : (10 : ℚ) * (57/2) = ((285 : ℤ) : ℚ) := by norm_num
    rw [h285, roundHalfEvenInt_intCast]
    norm_num
  · unfold check_alerts store_alert
    rw [if_pos (by norm_num [alert_threshold_high])]
    simp

end WarehouseMonitor
